import Mathlib

/-!
Formal model of the Smart-Waste-Route-Planner core: the capacity-constrained
bin registry of the client portal (src/components/Client.tsx) and the route
request builder / route result interpreter of the driver portal
(src/components/Driver.tsx).

Numbers held in JS variables (weights in kg, coordinates, metres, seconds) are
modelled as exact rationals ℚ; timestamps and addresses as strings.  The
browser's localStorage is modelled as an `Option StoredValue` threaded through
the operations (`none` = key "fullBins" absent).  Display-only formatting
(`Number.toFixed`) is modelled exactly: `toFixed(2)` of a value v is the
integer of hundredths `jsRound (v * 100)`, and JS `Math.round v` is
`jsRound v = ⌊v + 1/2⌋` (round half towards +∞), written with an explicitly
computable floor so that concrete states evaluate inside the kernel.
-/

attribute [local semireducible] Rat.add Rat.mul Rat.sub Rat.inv Rat.ofScientific

/-- Floor of a rational, computed directly from its reduced fraction
(`den` is always positive, so flooring division on the numerator is ⌊q⌋). -/
def ratFloor (q : ℚ) : ℤ := q.num.fdiv q.den

/-- JS `Math.round`: round half towards positive infinity. -/
def jsRound (q : ℚ) : ℤ := ratFloor (q + 1 / 2)

/-- Notification severities of the `NotificationState` interface shared by
both portals. -/
inductive NotifType where
  | success
  | error
  | info
deriving DecidableEq, Repr

/-- The `NotificationState` interface: `{ message, type }`. -/
structure NotificationState where
  message : String
  type : NotifType
deriving DecidableEq, Repr

/-- The `BinData` interface of Client.tsx: a reported bin.  `id` and
`createdAt` both hold `new Date().toISOString()` strings. -/
structure BinData where
  id : String
  location : String
  amount : ℚ
  lat : ℚ
  lng : ℚ
  createdAt : String
deriving DecidableEq, Repr

/-- The `StoredBinData` interface of Driver.tsx: what the driver portal reads
back from storage (it does not declare `createdAt`). -/
structure StoredBinData where
  id : String
  location : String
  amount : ℚ
  lat : ℚ
  lng : ℚ
deriving DecidableEq, Repr

/-- Reading a persisted `BinData` record through the driver's
`StoredBinData` interface. -/
def toStored (b : BinData) : StoredBinData :=
  { id := b.id, location := b.location, amount := b.amount, lat := b.lat, lng := b.lng }

/-- The value persisted under the localStorage key "fullBins".
`corrupt` stands for a stored string on which `JSON.parse` throws;
`bins l` stands for the well-formed serialization of the list `l`
(serialize/deserialize is an identity round trip). -/
inductive StoredValue where
  | corrupt : StoredValue
  | bins : List BinData → StoredValue
deriving DecidableEq, Repr

/-- `MAX_TRUCK_CAPACITY = 100` (kg), Client.tsx line 26. -/
def MAX_TRUCK_CAPACITY : ℚ := 100

/-- `totalAmount = bins.reduce((sum, bin) => sum + bin.amount, 0)`,
Client.tsx line 94. -/
def totalAmount (bins : List BinData) : ℚ :=
  bins.foldl (fun sum bin => sum + bin.amount) 0

/-- `remainingCapacity = Math.max(0, MAX_TRUCK_CAPACITY - totalAmount)`,
Client.tsx line 95. -/
def remainingCapacity (bins : List BinData) : ℚ :=
  max 0 (MAX_TRUCK_CAPACITY - totalAmount bins)

/-- The client portal's state relevant to the registry: its in-memory bin
list and the last notification shown.  (Form fields and map state are
presentation and are carried in `SubmitInput` instead.) -/
structure ClientState where
  bins : List BinData
  notification : Option NotificationState
deriving DecidableEq, Repr

/-- Client portal component state at mount. -/
def initClientState : ClientState := { bins := [], notification := none }

/-- The inputs a single `handleSubmit` call reads: the raw amount text, the
result of `parseFloat` on it (`none` = `NaN`), the pinned `latLng`, the
geocoded `location` text, the current time's ISO string (`new
Date().toISOString()`), and whether the `localStorage.setItem` write will
succeed (`false` = it throws). -/
structure SubmitInput where
  amountStr : String
  parsed : Option ℚ
  latLng : Option (ℚ × ℚ)
  location : String
  now : String
  persistOk : Bool
deriving DecidableEq, Repr

/-- Which of `handleSubmit`'s outcome branches ran (each corresponds to one
of the notifications the code raises): the two validation rejections, the
capacity rejection, or acceptance with a successful / failed store write. -/
inductive SubmitResult where
  | missingInput
  | notPositive
  | capacityExceeded
  | saved
  | saveFailed
deriving DecidableEq, Repr

/-- Result of one `handleSubmit` call: the new component state, the new
persisted value, and the branch taken. -/
structure SubmitOut where
  client : ClientState
  store : Option StoredValue
  result : SubmitResult
deriving DecidableEq, Repr

/-- The fallback location text `Pinned: lat, lng` (the `toFixed(4)` display
truncation of the two coordinates is elided). -/
def pinnedLabel (lat lng : ℚ) : String :=
  "Pinned: " ++ toString lat ++ ", " ++ toString lng

/-- The `newBin` object built in Client.tsx lines 166-175.  Both `id` and
`createdAt` are `new Date().toISOString()` of the submission instant. -/
def mkNewBin (inp : SubmitInput) (a : ℚ) (ll : ℚ × ℚ) : BinData :=
  { id := inp.now,
    location := if inp.location = "" then pinnedLabel ll.1 ll.2 else inp.location,
    amount := a,
    lat := ll.1,
    lng := ll.2,
    createdAt := inp.now }

/-- Notification of the missing pin / missing amount rejection. -/
def missingInputNotif : NotificationState :=
  ⟨"Please pin a location and enter the waste amount.", NotifType.error⟩

/-- Notification of the non-numeric / non-positive amount rejection. -/
def notPositiveNotif : NotificationState :=
  ⟨"Please enter a valid positive waste amount.", NotifType.error⟩

/-- Notification of the capacity rejection (the `toFixed(2)` display
truncation of the remaining capacity is elided). -/
def capacityNotif (remaining : ℚ) : NotificationState :=
  ⟨"Amount exceeds remaining truck capacity of " ++ toString remaining ++ " kg.", NotifType.error⟩

/-- Notification of a successful submission. -/
def savedNotif : NotificationState :=
  ⟨"Bin details submitted successfully!", NotifType.success⟩

/-- Notification shown when the localStorage write throws. -/
def saveFailedNotif : NotificationState :=
  ⟨"Failed to save bin. Data might be lost on refresh.", NotifType.error⟩

/-- `handleSubmit`, Client.tsx lines 133-204: validates the input (missing
pin/amount, non-positive or non-numeric amount, amount above the remaining
capacity), and on acceptance appends `newBin` to the in-memory list and
writes the updated list to localStorage; if the write throws, the in-memory
list is kept (no rollback) and an error notification is shown. -/
def handleSubmit (c : ClientState) (store : Option StoredValue) (inp : SubmitInput) :
    SubmitOut :=
  match inp.latLng with
  | none =>
      { client := { c with notification := some missingInputNotif },
        store := store, result := SubmitResult.missingInput }
  | some ll =>
      if inp.amountStr = "" then
        { client := { c with notification := some missingInputNotif },
          store := store, result := SubmitResult.missingInput }
      else
        match inp.parsed with
        | none =>
            { client := { c with notification := some notPositiveNotif },
              store := store, result := SubmitResult.notPositive }
        | some a =>
            if a ≤ 0 then
              { client := { c with notification := some notPositiveNotif },
                store := store, result := SubmitResult.notPositive }
            else if remainingCapacity c.bins < a then
              { client := { c with notification := some (capacityNotif (remainingCapacity c.bins)) },
                store := store, result := SubmitResult.capacityExceeded }
            else
              let updated := c.bins ++ [mkNewBin inp a ll]
              if inp.persistOk then
                { client := { c with bins := updated, notification := some savedNotif },
                  store := some (StoredValue.bins updated),
                  result := SubmitResult.saved }
              else
                { client := { c with bins := updated, notification := some saveFailedNotif },
                  store := store,
                  result := SubmitResult.saveFailed }

/-- Notification shown by `handleClear`. -/
def clearedNotif : NotificationState :=
  ⟨"All submitted bin data has been cleared.", NotifType.info⟩

/-- `handleClear`, Client.tsx lines 206-217: `localStorage.removeItem`, empty
the in-memory list, show an info notification.  Always succeeds. -/
def handleClear (c : ClientState) (_store : Option StoredValue) :
    ClientState × Option StoredValue :=
  ({ c with bins := [], notification := some clearedNotif }, none)

/-- Notification shown by the client portal when parsing the stored value
throws. -/
def clientLoadFailedNotif : NotificationState :=
  ⟨"Could not load previously submitted bins.", NotifType.error⟩

/-- The client portal's mount-time load effect, Client.tsx lines 69-82: read
"fullBins"; when absent do nothing; parse errors are caught and reported,
leaving the bin list as it was (empty at mount). -/
def clientLoadStep (c : ClientState) (store : Option StoredValue) : ClientState :=
  match store with
  | none => c
  | some StoredValue.corrupt =>
      { c with notification := some clientLoadFailedNotif }
  | some (StoredValue.bins bs) => { c with bins := bs }

/-- One client-portal interaction touching the registry. -/
inductive ClientOp where
  | submit (inp : SubmitInput)
  | clear
deriving DecidableEq, Repr

/-- Apply one client operation to (component state, persisted value). -/
def clientStep (s : ClientState × Option StoredValue) (op : ClientOp) :
    ClientState × Option StoredValue :=
  match op with
  | ClientOp.submit inp =>
      let o := handleSubmit s.1 s.2 inp
      (o.client, o.store)
  | ClientOp.clear => handleClear s.1 s.2

/-- Run a sequence of client operations. -/
def runClient (s : ClientState × Option StoredValue) (ops : List ClientOp) :
    ClientState × Option StoredValue :=
  ops.foldl clientStep s

/-- A latitude/longitude pair as used by the driver portal. -/
structure Coord where
  lat : ℚ
  lng : ℚ
deriving DecidableEq, Repr

/-- `DEFAULT_CENTER`, Driver.tsx line 141: the depot. -/
def DEFAULT_CENTER : Coord := ⟨6.902146919051226, 79.86086322142651⟩

/-- `driverLocation`, Driver.tsx lines 150-152: initialised to
`DEFAULT_CENTER` and never updated (the `useState` setter is unused). -/
def driverLocation : Coord := DEFAULT_CENTER

/-- A waypoint of a directions request: `{ location, stopover: true }`. -/
structure Waypoint where
  location : Coord
  stopover : Bool
deriving DecidableEq, Repr

/-- `google.maps.TravelMode` as far as this app uses it. -/
inductive TravelMode where
  | driving
deriving DecidableEq, Repr

/-- The request object passed to `directionsService.route`,
Driver.tsx lines 237-244. -/
structure RouteRequest where
  origin : Coord
  destination : Coord
  waypoints : List Waypoint
  optimizeWaypoints : Bool
  travelMode : TravelMode
deriving DecidableEq, Repr

/-- The coordinate extracted from a stored bin,
`(b) => ({ lat: b.lat, lng: b.lng })`, Driver.tsx line 228. -/
def coordOf (b : StoredBinData) : Coord := ⟨b.lat, b.lng⟩

/-- The route request constructed by `planRoute`, Driver.tsx lines 228-244:
origin = the driver's depot, destination = the last bin of the list
(`binLocations[binLocations.length - 1]`; the `getLastD` default is never
used because the empty list is rejected before this point), waypoints = all
earlier bins in order (`binLocations.slice(0, -1)`), each with
`stopover: true`, `optimizeWaypoints: true`, driving mode.
`none` models the `bins.length === 0` early return at line 217. -/
def buildRouteRequest (bins : List StoredBinData) (depot : Coord) : Option RouteRequest :=
  if bins.isEmpty then none
  else
    let binLocations := bins.map coordOf
    some { origin := depot,
           destination := binLocations.getLastD depot,
           waypoints := binLocations.dropLast.map (fun loc => { location := loc, stopover := true }),
           optimizeWaypoints := true,
           travelMode := TravelMode.driving }

/-- One leg of a directions response; `none` models an absent
`distance`/`duration` field (the code reads `leg.distance?.value || 0`).
Distances are in metres, durations in seconds. -/
structure RouteLeg where
  distance : Option ℚ
  duration : Option ℚ
deriving DecidableEq, Repr

/-- One route of a directions response (only its legs are read). -/
structure DirectionsRoute where
  legs : List RouteLeg
deriving DecidableEq, Repr

/-- A `google.maps.DirectionsResult` as far as the code reads it:
`result.routes[0].legs`. -/
structure DirectionsResult where
  routes : List DirectionsRoute
deriving DecidableEq, Repr

/-- The `RouteSummary` the driver portal stores, Driver.tsx lines 256-259.
The code keeps the two display strings; here they are kept exactly as the
numbers they print: `distanceCentiKm` is the `toFixed(2)` kilometre value in
hundredths (so the string is `distanceCentiKm / 100` with two decimals) and
`durationMin` the `Math.round(totalDuration / 60)` whole minutes. -/
structure RouteSummary where
  distanceCentiKm : ℤ
  durationMin : ℤ
deriving DecidableEq, Repr

/-- The aggregation in the directions callback, Driver.tsx lines 250-259:
`totalDistance`/`totalDuration` summed over the legs with `|| 0` defaults,
then `(totalDistance / 1000).toFixed(2)` km and
`Math.round(totalDuration / 60)` min. -/
def summaryOfLegs (legs : List RouteLeg) : RouteSummary :=
  let totalDistance : ℚ := legs.foldl (fun acc leg => acc + leg.distance.getD 0) 0
  let totalDuration : ℚ := legs.foldl (fun acc leg => acc + leg.duration.getD 0) 0
  { distanceCentiKm := jsRound (totalDistance / 10),
    durationMin := jsRound (totalDuration / 60) }

/-- `result.routes[0].legs` summed into a summary.  On an OK status the
directions service always returns at least one route; `headD` with an
empty-legs default stands for the `routes[0]` access. -/
def routeSummaryOf (r : DirectionsResult) : RouteSummary :=
  summaryOfLegs (r.routes.headD { legs := [] }).legs

/-- The driver portal's state.  `bins`, `mapReady` (whether `onMapLoad` has
delivered a map instance), `directionsResponse`, `routePlanned`,
`isLoadingRoute`, `routeSummary` and `notification` are the component's
`useState` variables.  `requestSent` and `inFlight` are observers of the
interaction with the external directions service, not component variables:
`requestSent` records the argument of the most recent
`directionsService.route` call and `inFlight` counts issued calls whose
callback has not yet run. -/
structure DriverState where
  bins : List StoredBinData
  mapReady : Bool
  directionsResponse : Option DirectionsResult
  routePlanned : Bool
  isLoadingRoute : Bool
  routeSummary : Option RouteSummary
  notification : Option NotificationState
  requestSent : Option RouteRequest
  inFlight : Nat
deriving DecidableEq, Repr

/-- Driver portal component state at mount. -/
def initDriverState : DriverState :=
  { bins := [], mapReady := false, directionsResponse := none, routePlanned := false,
    isLoadingRoute := false, routeSummary := none, notification := none,
    requestSent := none, inFlight := 0 }

/-- Notification of `planRoute` when the map is not ready. -/
def mapNotReadyNotif : NotificationState := ⟨"Map not ready.", NotifType.error⟩

/-- Notification of `planRoute` when there are no bins. -/
def noBinsNotif : NotificationState := ⟨"No bins to plan route.", NotifType.info⟩

/-- `planRoute`, Driver.tsx lines 214-273 (up to issuing the request): reject
when the map is not ready or the bin list is empty (no request is issued in
either case); otherwise set the loading flag, discard any previous response
and summary, clear the notification, and hand the request of
`buildRouteRequest` to the directions service. -/
def planRoute (s : DriverState) : DriverState :=
  if !s.mapReady then { s with notification := some mapNotReadyNotif }
  else if s.bins.isEmpty then { s with notification := some noBinsNotif }
  else
    { s with isLoadingRoute := true,
             directionsResponse := none,
             routeSummary := none,
             notification := none,
             requestSent := buildRouteRequest s.bins driverLocation,
             inFlight := s.inFlight + 1 }

/-- Notification of a successful plan. -/
def planSuccessNotif : NotificationState :=
  ⟨"Route planned successfully!", NotifType.success⟩

/-- Notification of a failed plan, carrying the service's status string. -/
def planFailedNotif (status : String) : NotificationState :=
  ⟨"Route planning failed: " ++ status, NotifType.error⟩

/-- The `directionsService.route` callback, Driver.tsx lines 245-271:
always clears the loading flag; on `status === "OK" && result` stores the
response, marks the route planned and computes the summary; otherwise shows
an error with the status.  There is no check that the component is still
waiting for a response, and no check that the route has any legs. -/
def planCallback (s : DriverState) (status : String) (result : Option DirectionsResult) :
    DriverState :=
  let s1 := { s with isLoadingRoute := false, inFlight := s.inFlight - 1 }
  match result with
  | some r =>
      if status = "OK" then
        { s1 with directionsResponse := some r,
                  routePlanned := true,
                  routeSummary := some (routeSummaryOf r),
                  notification := some planSuccessNotif }
      else
        { s1 with notification := some (planFailedNotif status) }
  | none => { s1 with notification := some (planFailedNotif status) }

/-- `clearRoute`, Driver.tsx lines 275-288: discard the response, the planned
flag and the summary; the bin list is untouched. -/
def clearRoute (s : DriverState) : DriverState :=
  { s with directionsResponse := none,
           routePlanned := false,
           routeSummary := none,
           notification := some ⟨"Route cleared.", NotifType.info⟩ }

/-- A click on the Plan Route button, Driver.tsx lines 321-332: the button is
`disabled={isLoadingRoute || routePlanned || bins.length === 0}`, so a click
runs `planRoute` only when none of these holds. -/
def clickPlanRoute (s : DriverState) : DriverState :=
  if s.isLoadingRoute || s.routePlanned || s.bins.isEmpty then s else planRoute s

/-- Notification of the driver load effect when there is nothing stored or
the stored list is empty. -/
def noBinsYetNotif : NotificationState :=
  ⟨"No bins reported yet. Waiting for submissions.", NotifType.info⟩

/-- Notification of the driver load effect when parsing throws. -/
def driverLoadFailedNotif : NotificationState :=
  ⟨"Could not load bin data.", NotifType.error⟩

/-- The driver portal's mount-time load effect, Driver.tsx lines 163-185:
read "fullBins"; absent → informational notification, bins untouched (still
empty at mount); parse error → caught, error notification, bins untouched;
parsed → bins replaced, with an informational notification when the parsed
list is empty. -/
def driverLoadStep (d : DriverState) (store : Option StoredValue) : DriverState :=
  match store with
  | none => { d with notification := some noBinsYetNotif }
  | some StoredValue.corrupt => { d with notification := some driverLoadFailedNotif }
  | some (StoredValue.bins bs) =>
      let parsed := bs.map toStored
      { d with bins := parsed,
               notification := if parsed.isEmpty then some noBinsYetNotif else d.notification }

/-- One driver-portal event. -/
inductive DriverOp where
  | mapLoad
  | loadBins (store : Option StoredValue)
  | click
  | response (status : String) (result : Option DirectionsResult)
  | clearRouteBtn
deriving Repr

/-- Apply one driver event to the component state. -/
def driverStep (d : DriverState) (op : DriverOp) : DriverState :=
  match op with
  | DriverOp.mapLoad => { d with mapReady := true }
  | DriverOp.loadBins store => driverLoadStep d store
  | DriverOp.click => clickPlanRoute d
  | DriverOp.response status result => planCallback d status result
  | DriverOp.clearRouteBtn => clearRoute d

/-- Run a sequence of driver events. -/
def runDriver (d : DriverState) (ops : List DriverOp) : DriverState :=
  ops.foldl driverStep d

/-- The whole system: the persisted value shared by the two independent
front ends, and the two components' in-memory states.  The portals
synchronise only through the store, at their load effects. -/
structure SystemState where
  store : Option StoredValue
  client : ClientState
  driver : DriverState
deriving DecidableEq, Repr

/-- One event of the whole system. -/
inductive SysOp where
  | clientLoad
  | clientSubmit (inp : SubmitInput)
  | clientClear
  | driverMapLoad
  | driverLoad
  | driverClick
  | driverResponse (status : String) (result : Option DirectionsResult)
  | driverClearRoute
deriving Repr

/-- Apply one system event.  Client events read and write the shared store;
driver events read it only at `driverLoad`. -/
def sysStep (s : SystemState) (op : SysOp) : SystemState :=
  match op with
  | SysOp.clientLoad => { s with client := clientLoadStep s.client s.store }
  | SysOp.clientSubmit inp =>
      let o := handleSubmit s.client s.store inp
      { s with client := o.client, store := o.store }
  | SysOp.clientClear =>
      let o := handleClear s.client s.store
      { s with client := o.1, store := o.2 }
  | SysOp.driverMapLoad => { s with driver := { s.driver with mapReady := true } }
  | SysOp.driverLoad => { s with driver := driverLoadStep s.driver s.store }
  | SysOp.driverClick => { s with driver := clickPlanRoute s.driver }
  | SysOp.driverResponse status result =>
      { s with driver := planCallback s.driver status result }
  | SysOp.driverClearRoute => { s with driver := clearRoute s.driver }

/-- Run a sequence of system events. -/
def runSys (s : SystemState) (ops : List SysOp) : SystemState :=
  ops.foldl sysStep s

/-! Concrete fixtures used by the witnesses and counterexamples. -/

/-- A bin already persisted before the driver session starts. -/
def exBinA : BinData :=
  { id := "2026-01-01T10:00:00.000Z", location := "Loc A", amount := 10,
    lat := 1, lng := 1, createdAt := "2026-01-01T10:00:00.000Z" }

/-- `exBinA` as the driver portal reads it. -/
def exStoredA : StoredBinData := toStored exBinA

/-- A one-route, one-leg directions response (5 km, 10 min). -/
def exDirections1 : DirectionsResult :=
  { routes := [ { legs := [ { distance := some 5000, duration := some 600 } ] } ] }

/-- The three-leg response of the specification's scenario:
D→B 5 km / 10 min, B→A 3 km / 6 min, A→C 4 km / 8 min. -/
def exDirections3 : DirectionsResult :=
  { routes := [ { legs :=
      [ { distance := some 5000, duration := some 600 },
        { distance := some 3000, duration := some 360 },
        { distance := some 4000, duration := some 480 } ] } ] }

/-- An OK response whose single route has no legs at all. -/
def exDirectionsNoLegs : DirectionsResult := { routes := [ { legs := [] } ] }

/-- A driver state that is ready to plan: map loaded, one bin, unplanned. -/
def exDriverReady : DriverState :=
  { initDriverState with mapReady := true, bins := [exStoredA] }

/-- The driver state right after `planRoute`: a request is in flight. -/
def exDriverPlanning : DriverState := planRoute exDriverReady

/-- A whole-system initial state whose store already holds `exBinA`. -/
def exSys0 : SystemState :=
  { store := some (StoredValue.bins [exBinA]),
    client := initClientState,
    driver := initDriverState }

/-- The system once both portals have loaded and the driver's plan has
succeeded: the driver is in the Planned state. -/
def exSysPlanned : SystemState :=
  runSys exSys0
    [SysOp.clientLoad, SysOp.driverMapLoad, SysOp.driverLoad, SysOp.driverClick,
     SysOp.driverResponse "OK" (some exDirections1)]

/-- A valid client submission of a second bin (5 kg at (2,2)). -/
def exSubmitB : SubmitInput :=
  { amountStr := "5", parsed := some 5, latLng := some (2, 2), location := "Loc B",
    now := "2026-01-01T11:00:00.000Z", persistOk := true }

/-- A submission of the given amount at pin (1,1) (used by the C1 witness;
`toString a` stands for the text the user typed). -/
def exSubmitAmount (astr : String) (a : ℚ) (now : String) : SubmitInput :=
  { amountStr := astr, parsed := some a, latLng := some (1, 1), location := "",
    now := now, persistOk := true }

/-- The specification scenario 40 / 40 / 15, all accepted. -/
def exOps95 : List ClientOp :=
  [ClientOp.submit (exSubmitAmount "40" 40 "2026-01-01T09:00:00.000Z"),
   ClientOp.submit (exSubmitAmount "40" 40 "2026-01-01T09:01:00.000Z"),
   ClientOp.submit (exSubmitAmount "15" 15 "2026-01-01T09:02:00.000Z")]

/-- The client state holding 95 kg after the 40 / 40 / 15 scenario. -/
def exClient95 : ClientState := (runClient (initClientState, none) exOps95).1

/-- The store after the 40 / 40 / 15 scenario. -/
def exStore95 : Option StoredValue := (runClient (initClientState, none) exOps95).2

/-- The over-capacity submission of 10 kg on top of 95. -/
def exSubmit10 : SubmitInput := exSubmitAmount "10" 10 "2026-01-01T09:03:00.000Z"

/-- The 40 / 40 / 15 scenario followed by the rejected 10-kg submission. -/
def exOpsCap : List ClientOp := exOps95 ++ [ClientOp.submit exSubmit10]

/-! # Helper lemmas -/

lemma totalAmount_append (l : List BinData) (b : BinData) :
    totalAmount (l ++ [b]) = totalAmount l + b.amount := by
  unfold totalAmount
  rw [List.foldl_append]
  rfl

lemma remainingCapacity_eq (bins : List BinData)
    (h : totalAmount bins ≤ MAX_TRUCK_CAPACITY) :
    remainingCapacity bins = MAX_TRUCK_CAPACITY - totalAmount bins := by
  unfold remainingCapacity
  exact max_eq_right (sub_nonneg.mpr h)

lemma handleSubmit_total_le (c : ClientState) (store : Option StoredValue) (inp : SubmitInput)
    (h : totalAmount c.bins ≤ MAX_TRUCK_CAPACITY) :
    totalAmount (handleSubmit c store inp).client.bins ≤ MAX_TRUCK_CAPACITY := by
  unfold handleSubmit
  cases hll : inp.latLng with
  | none => exact h
  | some ll =>
    by_cases hstr : inp.amountStr = ""
    · simpa [hstr] using h
    · cases hp : inp.parsed with
      | none => simpa [hstr] using h
      | some a =>
        by_cases ha : a ≤ 0
        · simpa [hstr, ha] using h
        · by_cases hcap : remainingCapacity c.bins < a
          · simpa [hstr, ha, hcap] using h
          · have hub : a ≤ remainingCapacity c.bins := not_lt.mp hcap
            rw [remainingCapacity_eq c.bins h] at hub
            by_cases hpk : inp.persistOk <;>
              simp [hstr, ha, hcap, hpk, totalAmount_append, mkNewBin] <;>
              linarith

lemma clientStep_total_le (s : ClientState × Option StoredValue) (op : ClientOp)
    (h : totalAmount s.1.bins ≤ MAX_TRUCK_CAPACITY) :
    totalAmount (clientStep s op).1.bins ≤ MAX_TRUCK_CAPACITY := by
  cases op with
  | submit inp => exact handleSubmit_total_le s.1 s.2 inp h
  | clear =>
      show totalAmount [] ≤ MAX_TRUCK_CAPACITY
      unfold totalAmount MAX_TRUCK_CAPACITY
      norm_num

lemma runClient_total_le (s : ClientState × Option StoredValue) (ops : List ClientOp)
    (h : totalAmount s.1.bins ≤ MAX_TRUCK_CAPACITY) :
    totalAmount (runClient s ops).1.bins ≤ MAX_TRUCK_CAPACITY := by
  induction ops generalizing s with
  | nil => exact h
  | cons op ops ih =>
      show totalAmount (runClient (clientStep s op) ops).1.bins ≤ MAX_TRUCK_CAPACITY
      exact ih _ (clientStep_total_le s op h)

lemma handleSubmit_rejected_unchanged (c : ClientState) (store : Option StoredValue)
    (inp : SubmitInput)
    (h : (handleSubmit c store inp).result = SubmitResult.capacityExceeded) :
    (handleSubmit c store inp).client.bins = c.bins ∧
    (handleSubmit c store inp).store = store := by
  unfold handleSubmit at h ⊢
  cases hll : inp.latLng with
  | none => rw [hll] at h; simp at h
  | some ll =>
    rw [hll] at h
    by_cases hstr : inp.amountStr = ""
    · simp [hstr] at h
    · cases hp : inp.parsed with
      | none => rw [hp] at h; simp [hstr] at h
      | some a =>
        rw [hp] at h
        by_cases ha : a ≤ 0
        · simp [hstr, ha] at h
        · by_cases hcap : remainingCapacity c.bins < a
          · simp [hstr, ha, hcap]
          · by_cases hpk : inp.persistOk <;> simp [hstr, ha, hcap, hpk] at h

lemma handleSubmit_over_capacity (c : ClientState) (store : Option StoredValue)
    (inp : SubmitInput) (a : ℚ) (ll : ℚ × ℚ)
    (h0 : totalAmount c.bins ≤ MAX_TRUCK_CAPACITY)
    (h1 : inp.amountStr ≠ "") (h2 : inp.parsed = some a) (h3 : inp.latLng = some ll)
    (h4 : MAX_TRUCK_CAPACITY - totalAmount c.bins < a) :
    (handleSubmit c store inp).result = SubmitResult.capacityExceeded := by
  have hra := remainingCapacity_eq c.bins h0
  have hpos : ¬ a ≤ 0 := by
    have hnn : (0 : ℚ) ≤ MAX_TRUCK_CAPACITY - totalAmount c.bins := sub_nonneg.mpr h0
    push_neg
    linarith
  have hcap : remainingCapacity c.bins < a := by rw [hra]; exact h4
  unfold handleSubmit
  rw [h3, h2]
  simp [h1, hpos, hcap]

/-! # Claims -/

/-- C1: starting from a bin set whose total is at most the fixed
`MAX_TRUCK_CAPACITY` of 100 kg, the sum of `amount` over the stored bins
never exceeds 100 under any sequence of submit/clear operations; a
submission whose amount exceeds the remaining capacity (capacity limit minus
the current total) is rejected with the capacity-exceeded error, and the
bin set (in memory and in the store) is exactly the same before and after
the rejected call. -/
theorem c1_capacity_invariant (c0 : ClientState) (st0 : Option StoredValue)
    (h0 : totalAmount c0.bins ≤ MAX_TRUCK_CAPACITY) :
    (∀ ops : List ClientOp,
       totalAmount (runClient (c0, st0) ops).1.bins ≤ MAX_TRUCK_CAPACITY) ∧
    (∀ inp : SubmitInput,
       (handleSubmit c0 st0 inp).result = SubmitResult.capacityExceeded →
       (handleSubmit c0 st0 inp).client.bins = c0.bins ∧
       (handleSubmit c0 st0 inp).store = st0) ∧
    (∀ (inp : SubmitInput) (a : ℚ) (ll : ℚ × ℚ),
       inp.amountStr ≠ "" → inp.parsed = some a → inp.latLng = some ll →
       MAX_TRUCK_CAPACITY - totalAmount c0.bins < a →
       (handleSubmit c0 st0 inp).result = SubmitResult.capacityExceeded) :=
  ⟨fun ops => runClient_total_le (c0, st0) ops h0,
   fun inp h => handleSubmit_rejected_unchanged c0 st0 inp h,
   fun inp a ll h1 h2 h3 h4 => handleSubmit_over_capacity c0 st0 inp a ll h0 h1 h2 h3 h4⟩

/-- Witness for C1 at the specification's scenario: submit 40, 40, 15
(committed 95 ≤ 100), then 10 is rejected with the capacity error. -/
theorem c1_capacity_invariant_witness :
    totalAmount (runClient (initClientState, none) exOpsCap).1.bins ≤ MAX_TRUCK_CAPACITY ∧
    (handleSubmit exClient95 exStore95 exSubmit10).result = SubmitResult.capacityExceeded ∧
    (handleSubmit exClient95 exStore95 exSubmit10).client.bins = exClient95.bins := by
  refine ⟨(c1_capacity_invariant initClientState none (by decide)).1 exOpsCap, ?_, ?_⟩
  · exact (c1_capacity_invariant exClient95 exStore95 (by decide)).2.2 exSubmit10 10 (1, 1)
      (by decide) (by decide) (by decide) (by decide)
  · exact ((c1_capacity_invariant exClient95 exStore95 (by decide)).2.1 exSubmit10
      (by decide)).1

/-- C9: `handleClear` empties the record list (so `list()` yields an empty
sequence and the committed total recomputes to 0) and removes the persisted
value, after which a reload sees the empty set; a second `handleClear`
produces exactly the same state, and the operation is total (it always
succeeds). -/
theorem c9_clear_registry (c : ClientState) (store : Option StoredValue) :
    (handleClear c store).1.bins = [] ∧
    totalAmount (handleClear c store).1.bins = 0 ∧
    (handleClear c store).2 = none ∧
    (clientLoadStep initClientState (handleClear c store).2).bins = [] ∧
    handleClear (handleClear c store).1 (handleClear c store).2 = handleClear c store :=
  ⟨rfl, rfl, rfl, rfl, rfl⟩

/-- C8: when a submission is accepted but the store write throws
(`result = saveFailed`), the in-memory bin set is not rolled back — the new
record is appended and stays visible — the persisted value is left as it
was, and the warning notification is shown (the session continues). -/
theorem c8_persist_failure_no_rollback (c : ClientState) (store : Option StoredValue)
    (inp : SubmitInput) (a : ℚ) (ll : ℚ × ℚ)
    (hp : inp.parsed = some a) (hl : inp.latLng = some ll)
    (h : (handleSubmit c store inp).result = SubmitResult.saveFailed) :
    (handleSubmit c store inp).client.bins = c.bins ++ [mkNewBin inp a ll] ∧
    (handleSubmit c store inp).store = store ∧
    (handleSubmit c store inp).client.notification = some saveFailedNotif := by
  unfold handleSubmit at h ⊢
  rw [hl, hp] at h ⊢
  by_cases hstr : inp.amountStr = ""
  · simp [hstr] at h
  · by_cases ha : a ≤ 0
    · simp [hstr, ha] at h
    · by_cases hcap : remainingCapacity c.bins < a
      · simp [hstr, ha, hcap] at h
      · by_cases hpk : inp.persistOk
        · simp [hstr, ha, hcap, hpk] at h
        · simp [hstr, ha, hcap, hpk]

/-- A valid 5-kg submission whose localStorage write throws. -/
def exSubmitFailStore : SubmitInput :=
  { amountStr := "5", parsed := some 5, latLng := some (2, 2), location := "Loc B",
    now := "2026-01-01T12:00:00.000Z", persistOk := false }

/-- Witness for C8: a concrete failed-persist submission keeps the record in
memory, leaves the store untouched and warns. -/
theorem c8_persist_failure_no_rollback_witness :
    (handleSubmit initClientState none exSubmitFailStore).client.bins
        = initClientState.bins ++ [mkNewBin exSubmitFailStore 5 (2, 2)] ∧
    (handleSubmit initClientState none exSubmitFailStore).store = none ∧
    (handleSubmit initClientState none exSubmitFailStore).client.notification
        = some saveFailedNotif :=
  c8_persist_failure_no_rollback initClientState none exSubmitFailStore 5 (2, 2)
    rfl rfl (by decide)

/-- A first submission dated at one fixed millisecond. -/
def exSameInstant1 : SubmitInput :=
  { amountStr := "1", parsed := some 1, latLng := some (1, 1), location := "X",
    now := "2026-10-11T00:00:00.000Z", persistOk := true }

/-- A second, different submission whose `new Date().toISOString()` falls in
the same millisecond. -/
def exSameInstant2 : SubmitInput :=
  { amountStr := "2", parsed := some 2, latLng := some (3, 4), location := "Y",
    now := "2026-10-11T00:00:00.000Z", persistOk := true }

/-- The registry after the first same-instant submission. -/
def exOutInstant1 : SubmitOut := handleSubmit initClientState none exSameInstant1

/-- The registry after both same-instant submissions. -/
def exOutInstant2 : SubmitOut :=
  handleSubmit exOutInstant1.client exOutInstant1.store exSameInstant2

/-- C10 (failing input): two accepted submissions created within the same
instant — `new Date().toISOString()` returns the same string — produce two
distinct records (amounts 1 and 2) carrying the identical `id`, so the ids
assigned at creation are not unique within the registry. -/
theorem c10_same_instant_duplicate_ids :
    exOutInstant2.result = SubmitResult.saved ∧
    exOutInstant2.client.bins.map BinData.id
        = ["2026-10-11T00:00:00.000Z", "2026-10-11T00:00:00.000Z"] ∧
    exOutInstant2.client.bins.map BinData.amount = [1, 2] := by decide

/-- C2 (counterexample): from a reachable system state in which the driver's
plan is Planned (`routePlanned = true`), a client-side `add` mutates the
shared bin set (the in-memory list grows and the persisted value changes)
yet the plan stays Planned, and a client-side `clear` likewise leaves the
plan Planned: no bin-set mutation forces the plan back to Unplanned. -/
theorem c2_planned_survives_mutation_counterexample :
    exSysPlanned.driver.routePlanned = true ∧
    (runSys exSysPlanned [SysOp.clientSubmit exSubmitB]).client.bins.length
        = exSysPlanned.client.bins.length + 1 ∧
    (runSys exSysPlanned [SysOp.clientSubmit exSubmitB]).store ≠ exSysPlanned.store ∧
    (runSys exSysPlanned [SysOp.clientSubmit exSubmitB]).driver.routePlanned = true ∧
    (runSys exSysPlanned [SysOp.clientClear]).store ≠ exSysPlanned.store ∧
    (runSys exSysPlanned [SysOp.clientClear]).driver.routePlanned = true := by decide

/-- C2 (as amended): bin-set mutations do not invalidate the plan: while the
driver's plan is Planned, a client `add` or `clear` — the only bin-set
mutations — leaves the driver's state (and so the Planned status) entirely
unchanged; only the driver's own clear-route action resets the plan. -/
theorem c2_mutation_keeps_plan (s : SystemState) (inp : SubmitInput)
    (h : s.driver.routePlanned = true) :
    (sysStep s (SysOp.clientSubmit inp)).driver.routePlanned = true ∧
    (sysStep s SysOp.clientClear).driver.routePlanned = true ∧
    (sysStep s (SysOp.clientSubmit inp)).driver = s.driver ∧
    (sysStep s SysOp.clientClear).driver = s.driver :=
  ⟨h, h, rfl, rfl⟩

/-- Witness for C2's amended statement at the concrete Planned system. -/
theorem c2_mutation_keeps_plan_witness :
    (sysStep exSysPlanned (SysOp.clientSubmit exSubmitB)).driver.routePlanned = true ∧
    (sysStep exSysPlanned SysOp.clientClear).driver = exSysPlanned.driver := by
  have h := c2_mutation_keeps_plan exSysPlanned exSubmitB (by decide)
  exact ⟨h.1, h.2.2.2⟩

/-- C3 (counterexample): the interpreter does not validate that the response
contains at least one leg: an "OK" response whose single route has zero legs
is accepted — the state transitions to Planned with the success notification
and a 0.00 km / 0 min summary — instead of being rejected. -/
theorem c3_no_leg_validation_counterexample :
    (planCallback exDriverPlanning "OK" (some exDirectionsNoLegs)).routePlanned = true ∧
    (planCallback exDriverPlanning "OK" (some exDirectionsNoLegs)).routeSummary
        = some { distanceCentiKm := 0, durationMin := 0 } ∧
    (planCallback exDriverPlanning "OK" (some exDirectionsNoLegs)).notification
        = some planSuccessNotif := by decide

/-- C3 (as amended): on an "OK" routing-service response with a result, the
interpreter — without validating that any leg is present — sums
`leg.distance` and `leg.duration` over the legs of `routes[0]`, converts the
totals to a summary (kilometres with two decimals, whole rounded minutes)
and transitions to Planned; for legs of 5 km/10 min, 3 km/6 min and
4 km/8 min the summary is 12.00 km (1200 hundredths) and 24 min. -/
theorem c3_success_sums_legs :
    (∀ (s : DriverState) (r : DirectionsResult),
        (planCallback s "OK" (some r)).routePlanned = true ∧
        (planCallback s "OK" (some r)).isLoadingRoute = false ∧
        (planCallback s "OK" (some r)).directionsResponse = some r ∧
        (planCallback s "OK" (some r)).routeSummary = some (routeSummaryOf r)) ∧
    routeSummaryOf exDirections3 = { distanceCentiKm := 1200, durationMin := 24 } := by
  refine ⟨fun s r => ?_, by decide⟩
  simp [planCallback]

lemma getLastD_map_coordOf (bins : List StoredBinData) (depot : Coord) (h : bins ≠ []) :
    (bins.map coordOf).getLastD depot = coordOf (bins.getLast h) := by
  rw [List.getLastD_eq_getLast?, List.getLast?_map, List.getLast?_eq_getLast _ h]
  rfl

/-- C4: for a non-empty bin list the request built for the directions
service has the depot as origin, the last bin (in insertion order) as
destination, all earlier bins in order — without any deduplication — as
waypoints each with `stopover := true`, `optimizeWaypoints := true` and
driving mode; a single-bin list gives that bin as destination and no
waypoints; and `planRoute` sends exactly this request. -/
theorem c4_route_request (bins : List StoredBinData) (depot : Coord) (h : bins ≠ []) :
    buildRouteRequest bins depot = some
      { origin := depot,
        destination := coordOf (bins.getLast h),
        waypoints := bins.dropLast.map (fun b => { location := coordOf b, stopover := true }),
        optimizeWaypoints := true,
        travelMode := TravelMode.driving } ∧
    (∀ b : StoredBinData, bins = [b] →
        buildRouteRequest bins depot = some
          { origin := depot, destination := coordOf b, waypoints := [],
            optimizeWaypoints := true, travelMode := TravelMode.driving }) ∧
    (∀ s : DriverState, s.mapReady = true → s.bins.isEmpty = false →
        (planRoute s).requestSent = buildRouteRequest s.bins driverLocation) := by
  refine ⟨?_, ?_, ?_⟩
  · have hne : bins.isEmpty = false := by simpa using h
    unfold buildRouteRequest
    rw [hne]
    simp [getLastD_map_coordOf bins depot h, ← List.map_dropLast, List.map_map]
    rw [List.getLast?_eq_getLast _ h]
    rfl
  · intro b hb
    subst hb
    simp [buildRouteRequest]
  · intro s h1 h2
    simp [planRoute, h1, h2]

/-- Witness for C4 on a singleton registry. -/
theorem c4_route_request_witness :
    buildRouteRequest [exStoredA] ⟨0, 0⟩ = some
      { origin := ⟨0, 0⟩, destination := coordOf exStoredA, waypoints := [],
        optimizeWaypoints := true, travelMode := TravelMode.driving } :=
  (c4_route_request [exStoredA] ⟨0, 0⟩ (by decide)).2.1 exStoredA rfl

/-- C5: with the map ready, an empty bin list and an Unplanned state,
`planRoute` only raises the no-bins notification: no request is handed to
the directions service (`requestSent` and `inFlight` are untouched) and the
state stays Unplanned with no summary. -/
theorem c5_empty_bins_no_request (s : DriverState)
    (hm : s.mapReady = true) (hb : s.bins = [])
    (hp : s.routePlanned = false) (hl : s.isLoadingRoute = false)
    (hs : s.routeSummary = none) :
    planRoute s = { s with notification := some noBinsNotif } ∧
    (planRoute s).requestSent = s.requestSent ∧
    (planRoute s).inFlight = s.inFlight ∧
    (planRoute s).routePlanned = false ∧
    (planRoute s).isLoadingRoute = false ∧
    (planRoute s).routeSummary = none := by
  have h1 : planRoute s = { s with notification := some noBinsNotif } := by
    simp [planRoute, hm, hb]
  refine ⟨h1, ?_, ?_, ?_, ?_, ?_⟩ <;> rw [h1] <;> simp [hp, hl, hs]

/-- A driver state with the map loaded and no bins. -/
def exDriverEmptyReady : DriverState := { initDriverState with mapReady := true }

/-- Witness for C5 at the empty mounted driver portal. -/
theorem c5_empty_bins_no_request_witness :
    planRoute exDriverEmptyReady
      = { exDriverEmptyReady with notification := some noBinsNotif } :=
  (c5_empty_bins_no_request exDriverEmptyReady rfl rfl rfl rfl rfl).1

/-- C6 (counterexample): `planRoute` itself has no re-entrancy guard: called
directly a second time while the first request is still in flight
(`isLoadingRoute = true`), it is not a no-op — it issues a second request,
so two routing requests are in flight at once. -/
theorem c6_double_plan_route_counterexample :
    (planRoute exDriverReady).isLoadingRoute = true ∧
    (planRoute exDriverReady).inFlight = 1 ∧
    planRoute (planRoute exDriverReady) ≠ planRoute exDriverReady ∧
    (planRoute (planRoute exDriverReady)).inFlight = 2 := by decide

/-- The coupling between the loading flag and the number of outstanding
directions requests: a request is in flight exactly while
`isLoadingRoute` is set. -/
def driverInv (d : DriverState) : Prop :=
  d.inFlight = if d.isLoadingRoute then 1 else 0

lemma driverInv_planRoute (d : DriverState) (hl : d.isLoadingRoute = false)
    (h : driverInv d) : driverInv (planRoute d) := by
  have h0 : d.inFlight = 0 := by
    unfold driverInv at h
    rw [hl] at h
    simpa using h
  cases hm : d.mapReady with
  | false => simp [planRoute, driverInv, hm, hl, h0]
  | true =>
      cases hb : d.bins.isEmpty with
      | true => simp [planRoute, driverInv, hm, hb, hl, h0]
      | false => simp [planRoute, driverInv, hm, hb, h0]

lemma driverInv_planCallback (d : DriverState) (status : String)
    (result : Option DirectionsResult) (h : driverInv d) :
    driverInv (planCallback d status result) := by
  have hz : d.inFlight - 1 = 0 := by
    unfold driverInv at h
    cases hd : d.isLoadingRoute <;> rw [hd] at h <;> simp at h <;> omega
  cases result with
  | none => simp [planCallback, driverInv, hz]
  | some r => by_cases hs : status = "OK" <;> simp [planCallback, driverInv, hs, hz]

lemma driverInv_step (d : DriverState) (op : DriverOp) (h : driverInv d) :
    driverInv (driverStep d op) := by
  cases op with
  | mapLoad =>
      show driverInv { d with mapReady := true }
      unfold driverInv at h ⊢
      simpa using h
  | loadBins store =>
      show driverInv (driverLoadStep d store)
      unfold driverInv at h ⊢
      cases store with
      | none => simpa [driverLoadStep] using h
      | some v =>
          cases v with
          | corrupt => simpa [driverLoadStep] using h
          | bins bs => simpa [driverLoadStep] using h
  | click =>
      show driverInv (clickPlanRoute d)
      unfold clickPlanRoute
      cases hl : d.isLoadingRoute with
      | true => simpa [hl] using h
      | false =>
          cases hp : d.routePlanned with
          | true => simpa [hl, hp] using h
          | false =>
              cases hb : d.bins.isEmpty with
              | true => simpa [hl, hp, hb] using h
              | false =>
                  simpa [hl, hp, hb] using driverInv_planRoute d hl h
  | response status result =>
      show driverInv (planCallback d status result)
      exact driverInv_planCallback d status result h
  | clearRouteBtn =>
      show driverInv (clearRoute d)
      unfold driverInv at h ⊢
      simpa [clearRoute] using h

lemma driverInv_run (d : DriverState) (ops : List DriverOp) (h : driverInv d) :
    driverInv (runDriver d ops) := by
  induction ops generalizing d with
  | nil => exact h
  | cons op ops ih =>
      show driverInv (runDriver (driverStep d op) ops)
      exact ih _ (driverInv_step d op h)

/-- C6 (as amended): the re-entrancy guard lives in the UI, not in
`planRoute`: the Plan Route button is disabled while Planning or Planned, so
a click in either state changes nothing (a no-op — the only report to the
user is the disabled button's label), and along every sequence of driver
events at most one routing request is ever in flight. -/
theorem c6_single_request_through_ui :
    (∀ d : DriverState, d.isLoadingRoute = true ∨ d.routePlanned = true →
        clickPlanRoute d = d) ∧
    (∀ ops : List DriverOp, (runDriver initDriverState ops).inFlight ≤ 1) := by
  constructor
  · rintro d (h | h) <;> simp [clickPlanRoute, h]
  · intro ops
    have h := driverInv_run initDriverState ops rfl
    unfold driverInv at h
    rw [h]
    split <;> norm_num

/-- C7 (counterexample): when the stored value is absent, the client
portal's load leaves the bin set empty but signals nothing at all — no
storage-corrupt condition is reported (and the driver portal shows only an
informational, not an error, message). -/
theorem c7_absent_store_no_error_counterexample :
    (clientLoadStep initClientState none).bins = [] ∧
    (clientLoadStep initClientState none).notification = none ∧
    (driverLoadStep initDriverState none).bins = [] ∧
    (driverLoadStep initDriverState none).notification = some noBinsYetNotif ∧
    noBinsYetNotif.type = NotifType.info := by decide

/-- C7 (as amended): a load whose stored value fails to deserialize returns
the empty bin set and signals the corrupt-storage error to the user (in both
portals) instead of crashing; a load with no stored value returns the empty
bin set silently in the client portal and with an informational message in
the driver portal.  In every failure case the in-memory bin set stays
empty. -/
theorem c7_failed_load_is_empty :
    (clientLoadStep initClientState (some StoredValue.corrupt)).bins = [] ∧
    (clientLoadStep initClientState (some StoredValue.corrupt)).notification
        = some clientLoadFailedNotif ∧
    clientLoadFailedNotif.type = NotifType.error ∧
    (driverLoadStep initDriverState (some StoredValue.corrupt)).bins = [] ∧
    (driverLoadStep initDriverState (some StoredValue.corrupt)).notification
        = some driverLoadFailedNotif ∧
    driverLoadFailedNotif.type = NotifType.error ∧
    (clientLoadStep initClientState none).bins = [] ∧
    (clientLoadStep initClientState none).notification = none ∧
    (driverLoadStep initDriverState none).bins = [] ∧
    (driverLoadStep initDriverState none).notification = some noBinsYetNotif := by decide
